import Mathlib

/-!
# Armenda thermostat: control engine of `src/main.cpp`

A shallow embedding of the control logic of the thermostat firmware
(`applyOutputs`, `updateLed`, `handleAmbient`, `handleCmd`, `onMqtt`, `loop`) and the
properties of its compressor guard, its staged heat timer and its relay lines.

Modelling conventions.

* The globals of `main.cpp` become the fields of `State`; the four relay pins
  written by `setRelay` become the fields `relay_G`, `relay_W1`, `relay_W2`,
  `relay_Y1`.
* `uint32_t` values are natural numbers; the only `uint32_t` arithmetic of the
  control logic, the subtraction `now - t`, is `u32sub`, taken modulo `2^32`.
* `float` values (temperatures, deadband, stage-2 delta) are exact rationals:
  rounding, infinities and NaN are not modelled.
* `now_s()` is read several times inside one run of `applyOutputs`; the model
  passes one clock value `now` to the run, so all the reads of one run agree.
  `applyOutputsAt` is the same run with separate reads for the cool block, the
  heat block and the guard block.
* `loopHeartbeat` is one pass of `loop()` in which no message and no web
  request arrives; the LED is not part of the state.
* The action strings "idle", "heating", "cooling", "fan" are the constructors
  of `Action`.
-/

namespace Thermostat

/-- The modulus of `uint32_t` arithmetic. -/
def U32 : Nat := 4294967296

/-- The `uint32_t` subtraction `a - b`, wrapping modulo `2^32`. -/
def u32sub (a b : Nat) : Nat := (a % U32 + (U32 - b % U32)) % U32

/-- The `enum Mode` of `main.cpp`. -/
inductive Mode where
  | M_OFF
  | M_HEAT
  | M_COOL
  | M_HEATCOOL
  | M_FANONLY
  deriving DecidableEq, Repr

/-- The values taken by the string `hvacAction`. -/
inductive Action where
  | idle
  | heating
  | cooling
  | fan
  deriving DecidableEq, Repr

/-- The LED routine that `updateLed` ends up calling. -/
inductive Led where
  | setLedOff
  | blinkLockout
  | setLedCooling
  | setLedHeat1
  | setLedHeat2
  | setLedFan
  | setLedIdle
  deriving DecidableEq, Repr

/-- The runtime state: the globals of `main.cpp` read or written by the control
logic, and the levels of the four relay pins. -/
structure State where
  currentTempF : ℚ
  targetTempF : ℚ
  humidity : ℚ
  hvacMode : Mode
  hvacModeStr : String
  hvacAction : Action
  y1_on : Bool
  y1_last_change : Nat
  w1_on : Bool
  w2_on : Bool
  w_call_start : Nat
  MIN_ON_SEC : Nat
  MIN_OFF_SEC : Nat
  DEADBAND_F : ℚ
  STAGE2_DELTA_F : ℚ
  STAGE2_DELAY_SEC : Nat
  FAN_WITH_HEAT : Bool
  relay_G : Bool
  relay_W1 : Bool
  relay_W2 : Bool
  relay_Y1 : Bool
  deriving DecidableEq

/-- The state after `setup()`: the initialisers of the globals, and the relay
pins after the `allOff()` of `setup`. -/
def init : State where
  currentTempF := 72
  targetTempF := 72
  humidity := 45
  hvacMode := Mode.M_OFF
  hvacModeStr := "off"
  hvacAction := Action.idle
  y1_on := false
  y1_last_change := 0
  w1_on := false
  w2_on := false
  w_call_start := 0
  MIN_ON_SEC := 300
  MIN_OFF_SEC := 300
  DEADBAND_F := 4 / 5
  STAGE2_DELTA_F := 2
  STAGE2_DELAY_SEC := 600
  FAN_WITH_HEAT := false
  relay_G := false
  relay_W1 := false
  relay_W2 := false
  relay_Y1 := false

/-- The function `allOff()`: the four relay pins are driven low. -/
def allOff (s : State) : State :=
  { s with relay_G := false, relay_W1 := false, relay_W2 := false, relay_Y1 := false }

/-- The local variables of `applyOutputs`. -/
structure Locals where
  want_G : Bool
  want_W1 : Bool
  want_W2 : Bool
  want_Y1 : Bool
  compressorBlocked : Bool
  deriving DecidableEq, Repr

/-- The lower edge of the comfort band, `low` in `applyOutputs`. -/
def low (s : State) : ℚ := s.targetTempF - s.DEADBAND_F / 2

/-- The upper edge of the comfort band, `high` in `applyOutputs`. -/
def high (s : State) : ℚ := s.targetTempF + s.DEADBAND_F / 2

/-- The condition of the `COOL demand` branch of `applyOutputs`. -/
def coolDemand (s : State) : Bool :=
  (s.hvacMode == Mode.M_COOL || s.hvacMode == Mode.M_HEATCOOL) && decide (s.currentTempF > high s)

/-- The condition of the `HEAT demand` branch of `applyOutputs`. -/
def heatDemand (s : State) : Bool :=
  (s.hvacMode == Mode.M_HEAT || s.hvacMode == Mode.M_HEATCOOL) && decide (s.currentTempF < low s)

/-- The stage-2 test `(targetTempF - currentTempF) >= STAGE2_DELTA_F`. -/
def bigCall (s : State) : Bool :=
  decide (s.targetTempF - s.currentTempF ≥ s.STAGE2_DELTA_F)

/-- The `COOL demand` block of `applyOutputs`. -/
def coolStep (now : Nat) (p : State × Locals) : State × Locals :=
  let s := p.1
  let l := p.2
  if coolDemand s then
    if !s.y1_on then
      if u32sub now s.y1_last_change ≥ s.MIN_OFF_SEC then
        ({ s with hvacAction := Action.cooling }, { l with want_Y1 := true, want_G := true })
      else
        (s, { l with compressorBlocked := true })
    else
      ({ s with hvacAction := Action.cooling }, { l with want_Y1 := true, want_G := true })
  else
    (s, l)

/-- The `HEAT demand` block of `applyOutputs`. -/
def heatStep (now : Nat) (p : State × Locals) : State × Locals :=
  let s := p.1
  let l := p.2
  if heatDemand s then
    let l1 := { l with want_W1 := true }
    let l2 := if s.FAN_WITH_HEAT then { l1 with want_G := true } else l1
    if bigCall s then
      let s1 := if s.w_call_start = 0 then { s with w_call_start := now } else s
      let l3 := if u32sub now s1.w_call_start ≥ s1.STAGE2_DELAY_SEC
        then { l2 with want_W2 := true } else l2
      ({ s1 with hvacAction := Action.heating }, l3)
    else
      let s1 := { s with w_call_start := if s.w1_on || s.w2_on then s.w_call_start else 0 }
      ({ s1 with hvacAction := Action.heating }, l2)
  else
    ({ s with w_call_start := 0 }, l)

/-- The `FAN-ONLY` block of `applyOutputs`. -/
def fanOnlyStep (p : State × Locals) : State × Locals :=
  let s := p.1
  let l := p.2
  if s.hvacMode = Mode.M_FANONLY then
    ({ s with hvacAction := Action.fan }, { l with want_G := true })
  else
    (s, l)

/-- The block `Compressor min ON/OFF enforcement` of `applyOutputs`. -/
def guardStep (now : Nat) (p : State × Locals) : State × Locals :=
  let s := p.1
  let l := p.2
  if l.want_Y1 ≠ s.y1_on then
    if l.want_Y1 then
      if u32sub now s.y1_last_change ≥ s.MIN_OFF_SEC then
        ({ s with relay_Y1 := true, y1_on := true, y1_last_change := now }, l)
      else
        (s, { l with compressorBlocked := true })
    else
      if u32sub now s.y1_last_change ≥ s.MIN_ON_SEC then
        ({ s with relay_Y1 := false, y1_on := false, y1_last_change := now }, l)
      else
        (s, { l with want_Y1 := true })
  else
    (s, l)

/-- The function `updateLed`, as the LED routine it calls. -/
def updateLed (s : State) (wantY1 wantW1 wantW2 wantG compressorBlocked : Bool) : Led :=
  if s.hvacMode = Mode.M_OFF then Led.setLedOff
  else if compressorBlocked then Led.blinkLockout
  else if s.hvacAction = Action.cooling || wantY1 then Led.setLedCooling
  else if s.hvacAction = Action.heating || wantW1 || wantW2 then
    (if wantW2 then Led.setLedHeat2 else Led.setLedHeat1)
  else if s.hvacAction = Action.fan || (s.hvacMode = Mode.M_FANONLY && wantG) then Led.setLedFan
  else Led.setLedIdle

/-- What one run of `applyOutputs` leaves behind: the state, the final values of
its locals (`fan` is `final_G`), and the LED routine called. -/
@[ext]
structure Eval where
  st : State
  fan : Bool
  heat1 : Bool
  heat2 : Bool
  compressor : Bool
  blocked : Bool
  led : Led
  deriving DecidableEq

/-- The blocks `Heat relays` and `Fan relay` of `applyOutputs`, and its call of
`updateLed`. -/
def relayStep (p : State × Locals) : Eval :=
  let s := p.1
  let l := p.2
  let s1 := { s with relay_W1 := l.want_W1, relay_W2 := l.want_W2,
                     w1_on := l.want_W1, w2_on := l.want_W2 }
  let final_G := l.want_G || l.want_Y1
  let s2 := { s1 with relay_G := final_G }
  { st := s2, fan := final_G, heat1 := l.want_W1, heat2 := l.want_W2,
    compressor := l.want_Y1, blocked := l.compressorBlocked,
    led := updateLed s2 l.want_Y1 l.want_W1 l.want_W2 final_G l.compressorBlocked }

/-- The function `applyOutputs()`, run at clock value `now` (seconds). -/
def applyOutputs (now : Nat) (s : State) : Eval :=
  let l0 : Locals := { want_G := false, want_W1 := false, want_W2 := false,
                       want_Y1 := false, compressorBlocked := false }
  let s0 := { s with hvacAction := Action.idle }
  relayStep (guardStep now (fanOnlyStep (heatStep now (coolStep now (s0, l0)))))

/-- The fields of a telemetry payload read by `handleAmbient`; `none` is an
absent key, `some v` the value returned by `as<float>()`. -/
structure Ambient where
  temp_f : Option ℚ
  humidity : Option ℚ
  deriving DecidableEq

/-- The fields of a command payload read by `handleCmd`; `none` is an absent
key, `some v` the value returned by the `as<T>()` conversion of the key. The
administrative keys `portal` and `wifi_reset` (captive portal, reboot) are not
part of the control logic and are not modelled. -/
structure Cmd where
  mode : Option String
  target_temp_f : Option ℚ
  min_on_s : Option Nat
  min_off_s : Option Nat
  deadband_f : Option ℚ
  stage2_delta_f : Option ℚ
  stage2_delay_s : Option Nat
  fan_with_heat : Option Bool
  deriving DecidableEq

/-- The function `handleAmbient`. -/
def handleAmbient (j : Ambient) (s : State) : State :=
  let s1 := match j.temp_f with
    | some v => { s with currentTempF := v }
    | none => s
  match j.humidity with
  | some v => { s1 with humidity := v }
  | none => s1

/-- The method `String::toLowerCase()` of the Arduino core. -/
def toLowerCase (m : String) : String := m.map Char.toLower

/-- The `mode` block of `handleCmd`, on the string of the `mode` key. -/
def setMode (m0 : String) (s : State) : State :=
  let m := toLowerCase m0
  if m = "off" then allOff { s with hvacMode := Mode.M_OFF, hvacModeStr := "off" }
  else if m = "heat" then { s with hvacMode := Mode.M_HEAT, hvacModeStr := "heat" }
  else if m = "cool" then { s with hvacMode := Mode.M_COOL, hvacModeStr := "cool" }
  else if m = "heat_cool" then { s with hvacMode := Mode.M_HEATCOOL, hvacModeStr := "heat_cool" }
  else if m = "fan_only" then { s with hvacMode := Mode.M_FANONLY, hvacModeStr := "fan_only" }
  else s

/-- The function `handleCmd`. -/
def handleCmd (j : Cmd) (s : State) : State :=
  let s1 := match j.mode with
    | some m => setMode m s
    | none => s
  let s2 := match j.target_temp_f with
    | some v => { s1 with targetTempF := v }
    | none => s1
  let s3 := match j.min_on_s with
    | some v => { s2 with MIN_ON_SEC := v }
    | none => s2
  let s4 := match j.min_off_s with
    | some v => { s3 with MIN_OFF_SEC := v }
    | none => s3
  let s5 := match j.deadband_f with
    | some v => { s4 with DEADBAND_F := v }
    | none => s4
  let s6 := match j.stage2_delta_f with
    | some v => { s5 with STAGE2_DELTA_F := v }
    | none => s5
  let s7 := match j.stage2_delay_s with
    | some v => { s6 with STAGE2_DELAY_SEC := v }
    | none => s6
  match j.fan_with_heat with
  | some v => { s7 with FAN_WITH_HEAT := v }
  | none => s7

/-- A message dispatched by `onMqtt` to one of the two handlers. -/
inductive Event where
  | ambient (j : Ambient)
  | cmd (j : Cmd)
  deriving DecidableEq

/-- The handler that `onMqtt` selects for a message. -/
def handle (e : Event) (s : State) : State :=
  match e with
  | Event.ambient j => handleAmbient j s
  | Event.cmd j => handleCmd j s

/-- One dispatched message, with the clock value at which it is processed. -/
structure Step where
  now : Nat
  ev : Event
  deriving DecidableEq

/-- The record of one run of `onMqtt` on a parsed message: the clock value,
the state when the message arrives, the state the handler leaves to
`applyOutputs`, and what `applyOutputs` leaves behind. -/
structure Rec where
  now : Nat
  before : State
  pre : State
  out : Eval
  deriving DecidableEq

/-- The function `onMqtt` on a parsed message of the command or ambient topic:
the handler, then `applyOutputs` (the publication has no effect on the state). -/
def onMqtt (st : Step) (s : State) : Rec :=
  let pre := handle st.ev s
  { now := st.now, before := s, pre := pre, out := applyOutputs st.now pre }

/-- The records of the successive runs of `onMqtt` on a list of messages. -/
def trace (s : State) : List Step → List Rec
  | [] => []
  | st :: rest => onMqtt st s :: trace (onMqtt st s).out.st rest

/-- The state after a list of messages. -/
def run (s : State) : List Step → State
  | [] => s
  | st :: rest => run (onMqtt st s).out.st rest

/-- The clock never goes back: every message is processed at a clock value at
least `t` and at least that of the message before it, and below `2^32`. -/
def clockOk (t : Nat) : List Step → Bool
  | [] => true
  | st :: rest => decide (t ≤ st.now) && decide (st.now < U32) && clockOk st.now rest

/-- A command payload with no key. -/
def Cmd.empty : Cmd :=
  { mode := none, target_temp_f := none, min_on_s := none, min_off_s := none,
    deadband_f := none, stage2_delta_f := none, stage2_delay_s := none,
    fan_with_heat := none }

/-! ## Derived conditions, used to state what each block of `applyOutputs` does -/

/-- The cool block grants the compressor: cool demand, and the compressor is
on or has rested for `MIN_OFF_SEC`. -/
def coolGo (now : Nat) (s : State) : Bool :=
  coolDemand s && (s.y1_on || decide (s.MIN_OFF_SEC ≤ u32sub now s.y1_last_change))

/-- The value of `w_call_start` after the heat block. -/
def heatTimer (now : Nat) (s : State) : Nat :=
  if heatDemand s then
    if bigCall s then (if s.w_call_start = 0 then now else s.w_call_start)
    else (if s.w1_on || s.w2_on then s.w_call_start else 0)
  else 0

/-- The heat block grants stage 2: heat demand, a big call, and the stage timer
has run for `STAGE2_DELAY_SEC`. -/
def heatGo2 (now : Nat) (s : State) : Bool :=
  heatDemand s && bigCall s && decide (s.STAGE2_DELAY_SEC ≤ u32sub now (heatTimer now s))

/-- The value of `y1_on` after the guard block, given the request `want`. -/
def guardOn (now : Nat) (s : State) (want : Bool) : Bool :=
  if want then s.y1_on || decide (s.MIN_OFF_SEC ≤ u32sub now s.y1_last_change)
  else s.y1_on && !decide (s.MIN_ON_SEC ≤ u32sub now s.y1_last_change)

/-! ## Properties of one recorded run of `onMqtt` -/

/-- The dwell rule on one record: the handler does not touch the guard, the
last transition is not in the future, and the evaluation either starts the
compressor after `MIN_OFF_SEC`, or stops it after `MIN_ON_SEC`, stamping
`y1_last_change` with the clock in both cases, or leaves the guard as it was. -/
def Rec.dwellOk (r : Rec) : Prop :=
  r.pre.y1_on = r.before.y1_on ∧
  r.pre.y1_last_change = r.before.y1_last_change ∧
  r.pre.y1_last_change ≤ r.now ∧
  ((r.pre.y1_on = false ∧ r.out.st.y1_on = true ∧
      r.pre.MIN_OFF_SEC ≤ r.now - r.pre.y1_last_change ∧
      r.out.st.y1_last_change = r.now) ∨
   (r.pre.y1_on = true ∧ r.out.st.y1_on = false ∧
      r.pre.MIN_ON_SEC ≤ r.now - r.pre.y1_last_change ∧
      r.out.st.y1_last_change = r.now) ∨
   (r.out.st.y1_on = r.pre.y1_on ∧
      r.out.st.y1_last_change = r.pre.y1_last_change))

/-! ## Concrete runs -/

/-- The command `mode = cool`. -/
def cmdCool : Event := Event.cmd { Cmd.empty with mode := some "cool" }

/-- The command `mode = off`. -/
def cmdOff : Event := Event.cmd { Cmd.empty with mode := some "off" }

/-- A telemetry message carrying only `temp_f`. -/
def tempIs (v : ℚ) : Event := Event.ambient { temp_f := some v, humidity := none }

/-- A run that starts the compressor: mode Cool at 300 s, then a reading of
75 degrees at 301 s (target 72, deadband 0.8, `MIN_OFF_SEC` 300). -/
def coolRun : List Step := [⟨300, cmdCool⟩, ⟨301, tempIs 75⟩]

/-- The state after `coolRun`: the compressor is on since 301 s. -/
def cooling : State := run init coolRun

/-- The record of the command `mode = off` arriving 49 s after the compressor
started, inside the minimum run time. -/
def offEarly : Rec := onMqtt ⟨350, cmdOff⟩ cooling

/-- The record of the command `mode = off` arriving 399 s after the compressor
started, past the minimum run time. -/
def offLate : Rec := onMqtt ⟨700, cmdOff⟩ cooling

/-- The scenario state of the cool start: mode Cool, target 72, deadband 0.8,
reading 75, compressor off since boot, `MIN_OFF_SEC` 300. -/
def coolCall : State :=
  { init with hvacMode := Mode.M_COOL, hvacModeStr := "cool", currentTempF := 75 }

/-- The state the dispatcher reaches from the initial one with the command
`mode = heat_cool, deadband_f = -10` and a reading of 75 degrees. -/
def negBand : State :=
  handle (Event.cmd { Cmd.empty with mode := some "heat_cool", deadband_f := some (-10) })
    (handle (tempIs 75) init)

/-- The record of the reading that starts the compressor in `coolRun`. -/
def coolStart : Rec := onMqtt ⟨301, tempIs 75⟩ (onMqtt ⟨300, cmdCool⟩ init).out.st

/-- The command `mode = heat, target_temp_f = 74`. -/
def cmdHeat74 : Event :=
  Event.cmd { Cmd.empty with mode := some "heat", target_temp_f := some 74 }

/-- A heat run (target 74, reading 68, `STAGE2_DELTA_F` 2, `STAGE2_DELAY_SEC`
600) whose big call is first seen at clock value 2. -/
def heatRun : List Step := [⟨1, tempIs 68⟩, ⟨2, cmdHeat74⟩, ⟨602, tempIs 68⟩]

/-- The first record of `heatRun`: the reading, in mode Off. -/
def heatRec1 : Rec := onMqtt ⟨1, tempIs 68⟩ init

/-- The second record of `heatRun`: the big call is first seen, at 2 s. -/
def heatRec2 : Rec := onMqtt ⟨2, cmdHeat74⟩ heatRec1.out.st

/-- The third record of `heatRun`: the evaluation at 602 s. -/
def heatRec3 : Rec := onMqtt ⟨602, tempIs 68⟩ heatRec2.out.st

/-- The same heat run with the big call first seen at clock value 0, in the
first second after boot. -/
def bootRun : List Step := [⟨0, tempIs 68⟩, ⟨0, cmdHeat74⟩, ⟨600, tempIs 68⟩]

/-- The first record of `bootRun`: the reading, in mode Off. -/
def bootRec1 : Rec := onMqtt ⟨0, tempIs 68⟩ init

/-- The second record of `bootRun`: the big call is first seen, at 0 s. -/
def bootRec2 : Rec := onMqtt ⟨0, cmdHeat74⟩ bootRec1.out.st

/-- The third record of `bootRun`: the evaluation at 600 s. -/
def bootRec3 : Rec := onMqtt ⟨600, tempIs 68⟩ bootRec2.out.st

/-! ## The evaluation when the clock moves during one run -/

/-- The function `applyOutputs()` when the clock moves during the run:
`nowCool`, `nowHeat` and `nowGuard` are the values returned by `now_s()` in
the cool block, in the heat block and in the guard block. -/
def applyOutputsAt (nowCool nowHeat nowGuard : Nat) (s : State) : Eval :=
  let l0 : Locals := { want_G := false, want_W1 := false, want_W2 := false,
                       want_Y1 := false, compressorBlocked := false }
  let s0 := { s with hvacAction := Action.idle }
  relayStep (guardStep nowGuard (fanOnlyStep (heatStep nowHeat (coolStep nowCool (s0, l0)))))

/-- The state and the locals of `applyOutputs` on entry to its guard block. -/
def guardInput (nowCool nowHeat : Nat) (s : State) : State × Locals :=
  let l0 : Locals := { want_G := false, want_W1 := false, want_W2 := false,
                       want_Y1 := false, compressorBlocked := false }
  let s0 := { s with hvacAction := Action.idle }
  fanOnlyStep (heatStep nowHeat (coolStep nowCool (s0, l0)))

/-- The path condition of the blocked branch of the guard block: `want_Y1` is
set, the compressor is off, and less than `MIN_OFF_SEC` has elapsed. -/
def guardBlocks (now : Nat) (p : State × Locals) : Bool :=
  p.2.want_Y1 && !p.1.y1_on && !decide (p.1.MIN_OFF_SEC ≤ u32sub now p.1.y1_last_change)

/-! ## The status mapping in the words of the specification -/

/-- The status signals named by the specification. -/
inductive Status where
  | off
  | lockoutAlert
  | cooling
  | heatStage1
  | heatStage2
  | fan
  | idle
  deriving DecidableEq, Repr

/-- The status signal shown by each LED routine (the colour table in the
header of `main.cpp`). -/
def Led.status : Led → Status
  | Led.setLedOff => Status.off
  | Led.blinkLockout => Status.lockoutAlert
  | Led.setLedCooling => Status.cooling
  | Led.setLedHeat1 => Status.heatStage1
  | Led.setLedHeat2 => Status.heatStage2
  | Led.setLedFan => Status.fan
  | Led.setLedIdle => Status.idle

/-- First match wins: the signal of the first rule whose condition holds, and
idle when none does. -/
def firstMatch : List (Bool × Status) → Status
  | [] => Status.idle
  | (c, r) :: rest => if c then r else firstMatch rest

/-- The priority rules of the specification's status indicator, in order. -/
def specStatusRules (mode : Mode) (fan heat1 heat2 compressor : Bool) (action : Action)
    (blocked : Bool) : List (Bool × Status) :=
  [ (decide (mode = Mode.M_OFF), Status.off),
    (blocked, Status.lockoutAlert),
    (compressor || decide (action = Action.cooling), Status.cooling),
    (heat1 || heat2 || decide (action = Action.heating),
      if heat2 then Status.heatStage2 else Status.heatStage1),
    (decide (action = Action.fan) || (decide (mode = Mode.M_FANONLY) && fan), Status.fan) ]

/-- The status indicator of the specification. -/
def specStatus (mode : Mode) (fan heat1 heat2 compressor : Bool) (action : Action)
    (blocked : Bool) : Status :=
  firstMatch (specStatusRules mode fan heat1 heat2 compressor action blocked)

/-! ## The mode field in the words of the specification -/

/-- The document built by `publishState()`. -/
structure Published where
  mode : String
  action : Action
  current_temp : ℚ
  target_temp : ℚ
  humidity : ℚ
  min_on_s : Nat
  min_off_s : Nat
  deadband_f : ℚ
  stage2_delta_f : ℚ
  stage2_delay_s : Nat
  fan_with_heat : Bool
  deriving DecidableEq

/-- The function `publishState()`, as the document it sends. -/
def publishState (s : State) : Published :=
  { mode := s.hvacModeStr, action := s.hvacAction, current_temp := s.currentTempF,
    target_temp := s.targetTempF, humidity := s.humidity, min_on_s := s.MIN_ON_SEC,
    min_off_s := s.MIN_OFF_SEC, deadband_f := s.DEADBAND_F,
    stage2_delta_f := s.STAGE2_DELTA_F, stage2_delay_s := s.STAGE2_DELAY_SEC,
    fan_with_heat := s.FAN_WITH_HEAT }

/-- What `loop()` works on: the globals, its static `t0` (milliseconds), and
the state documents sent so far, newest first. -/
structure Loop where
  st : State
  t0 : Nat
  sent : List Published
  deriving DecidableEq

/-- One pass of `loop()` at `millis() = ms` with Wi-Fi and MQTT connected, when
`mqtt.loop()` delivers no message and `server.handleClient()` no request: what
is left is the block `Heartbeat for HA attributes`. -/
def loopHeartbeat (ms : Nat) (l : Loop) : Loop :=
  if u32sub ms l.t0 > 5000 then { l with t0 := ms, sent := publishState l.st :: l.sent }
  else l

/-- One pass of `loop()` at `millis() = ms`, MQTT connected and no web request:
nothing happens without Wi-Fi; otherwise `mqtt.loop()` hands the message `msg`,
if there is one, to `onMqtt` at `now_s() = ms / 1000`, which evaluates and
publishes, and the heartbeat block follows. -/
def loopPass (wifiUp : Bool) (ms : Nat) (msg : Option Event) (l : Loop) : Loop :=
  if !wifiUp then l
  else
    let l1 := match msg with
      | some e =>
        { l with st := (onMqtt ⟨ms / 1000, e⟩ l.st).out.st,
                 sent := publishState (onMqtt ⟨ms / 1000, e⟩ l.st).out.st :: l.sent }
      | none => l
    loopHeartbeat ms l1

/-! ## More concrete runs -/

/-- The record of a reading of 70 degrees arriving 49 s after the compressor
started: the cool demand is gone inside the minimum run time. -/
def minRun : Rec := onMqtt ⟨350, tempIs 70⟩ cooling

/-- The state after mode Cool at 10 s and a reading of 75 degrees at 100 s: the
compressor start is blocked, `MIN_OFF_SEC` being 300. -/
def waiting : State := run init [⟨10, cmdCool⟩, ⟨100, tempIs 75⟩]

/-- The main loop 400 s after boot in the state `waiting`, nothing sent yet. -/
def waitingLoop : Loop := { st := waiting, t0 := 0, sent := [] }

/-- The run `heatRun` followed by a reading of 73 degrees at 700 s: heat demand
stays (target 74, deadband 0.8) with a delta below `STAGE2_DELTA_F`. -/
def easeRun : List Step := heatRun ++ [⟨700, tempIs 73⟩]

/-- The last record of `easeRun`. -/
def easeRec : Rec := onMqtt ⟨700, tempIs 73⟩ heatRec3.out.st

/-! ## The stage invariant -/

/-- The stage invariant: a running stage timer implies stage 1 on, and stage 2
on implies stage 1 on. -/
def StageOk (s : State) : Prop :=
  (s.w_call_start ≠ 0 → s.w1_on = true) ∧ (s.w2_on = true → s.w1_on = true)

/-! # Theorems -/

/-! ## Wrapping subtraction -/

theorem u32sub_eq {a b : Nat} (h1 : b ≤ a) (h2 : a < U32) : u32sub a b = a - b := by
  unfold u32sub U32 at *
  omega

theorem u32sub_self {a : Nat} : u32sub a a = 0 := by
  unfold u32sub U32
  omega

/-! ## The blocks of `applyOutputs`, field by field -/

theorem coolStep_st (now : Nat) (p : State × Locals) :
    (coolStep now p).1 =
      { p.1 with hvacAction := if coolGo now p.1 then Action.cooling else p.1.hvacAction } := by
  rcases p with ⟨s, l⟩
  by_cases h1 : coolDemand s = true <;> by_cases h2 : s.y1_on = true <;>
    by_cases h3 : s.MIN_OFF_SEC ≤ u32sub now s.y1_last_change <;>
    simp only [coolStep, coolGo, h1, h2, h3] <;> cases s <;> simp_all

theorem coolStep_loc (now : Nat) (p : State × Locals) :
    (coolStep now p).2 =
      { want_G := p.2.want_G || coolGo now p.1,
        want_W1 := p.2.want_W1,
        want_W2 := p.2.want_W2,
        want_Y1 := p.2.want_Y1 || coolGo now p.1,
        compressorBlocked := p.2.compressorBlocked || (coolDemand p.1 && !coolGo now p.1) } := by
  rcases p with ⟨s, l⟩
  by_cases h1 : coolDemand s = true <;> by_cases h2 : s.y1_on = true <;>
    by_cases h3 : s.MIN_OFF_SEC ≤ u32sub now s.y1_last_change <;>
    simp only [coolStep, coolGo, h1, h2, h3] <;> cases l <;> simp_all

theorem heatStep_st (now : Nat) (p : State × Locals) :
    (heatStep now p).1 =
      { p.1 with
        hvacAction := if heatDemand p.1 then Action.heating else p.1.hvacAction,
        w_call_start := heatTimer now p.1 } := by
  rcases p with ⟨s, l⟩
  by_cases h1 : heatDemand s = true <;> by_cases h2 : bigCall s = true <;>
    by_cases h3 : s.w_call_start = 0 <;>
    simp only [heatStep, heatTimer, h1, h2, h3] <;> cases s <;> simp_all

theorem heatStep_loc (now : Nat) (p : State × Locals) :
    (heatStep now p).2 =
      { want_G := p.2.want_G || (heatDemand p.1 && p.1.FAN_WITH_HEAT),
        want_W1 := p.2.want_W1 || heatDemand p.1,
        want_W2 := p.2.want_W2 || heatGo2 now p.1,
        want_Y1 := p.2.want_Y1,
        compressorBlocked := p.2.compressorBlocked } := by
  rcases p with ⟨s, l⟩
  by_cases h1 : heatDemand s = true <;> by_cases h2 : bigCall s = true <;>
    by_cases h3 : s.w_call_start = 0 <;> by_cases h4 : s.FAN_WITH_HEAT = true <;>
    simp only [heatStep, heatGo2, heatTimer, h1, h2, h3, h4] <;> cases l <;> simp_all <;>
    split_ifs <;> simp_all

theorem fanOnlyStep_st (p : State × Locals) :
    (fanOnlyStep p).1 =
      { p.1 with
        hvacAction := if p.1.hvacMode = Mode.M_FANONLY then Action.fan else p.1.hvacAction } := by
  rcases p with ⟨s, l⟩
  by_cases h1 : s.hvacMode = Mode.M_FANONLY <;>
    simp only [fanOnlyStep, h1] <;> cases s <;> simp_all

theorem fanOnlyStep_loc (p : State × Locals) :
    (fanOnlyStep p).2 =
      { p.2 with want_G := p.2.want_G || decide (p.1.hvacMode = Mode.M_FANONLY) } := by
  rcases p with ⟨s, l⟩
  by_cases h1 : s.hvacMode = Mode.M_FANONLY <;>
    simp only [fanOnlyStep, h1] <;> cases l <;> simp_all

theorem guardStep_st (now : Nat) (p : State × Locals) :
    (guardStep now p).1 =
      { p.1 with
        y1_on := guardOn now p.1 p.2.want_Y1,
        y1_last_change :=
          if guardOn now p.1 p.2.want_Y1 = p.1.y1_on then p.1.y1_last_change else now,
        relay_Y1 :=
          if guardOn now p.1 p.2.want_Y1 = p.1.y1_on then p.1.relay_Y1
          else guardOn now p.1 p.2.want_Y1 } := by
  rcases p with ⟨s, l⟩
  by_cases h1 : l.want_Y1 = true <;> by_cases h2 : s.y1_on = true <;>
    by_cases h3 : s.MIN_OFF_SEC ≤ u32sub now s.y1_last_change <;>
    by_cases h4 : s.MIN_ON_SEC ≤ u32sub now s.y1_last_change <;>
    simp only [guardStep, guardOn, h1, h2, h3, h4] <;> cases s <;> simp_all

theorem guardStep_loc (now : Nat) (p : State × Locals) :
    (guardStep now p).2 =
      { p.2 with
        want_Y1 := p.2.want_Y1 ||
          (p.1.y1_on && !decide (p.1.MIN_ON_SEC ≤ u32sub now p.1.y1_last_change)),
        compressorBlocked := p.2.compressorBlocked ||
          (p.2.want_Y1 && !p.1.y1_on &&
            !decide (p.1.MIN_OFF_SEC ≤ u32sub now p.1.y1_last_change)) } := by
  rcases p with ⟨s, l⟩
  by_cases h1 : l.want_Y1 = true <;> by_cases h2 : s.y1_on = true <;>
    by_cases h3 : s.MIN_OFF_SEC ≤ u32sub now s.y1_last_change <;>
    by_cases h4 : s.MIN_ON_SEC ≤ u32sub now s.y1_last_change <;>
    simp only [guardStep, h1, h2, h3, h4] <;> cases l <;> simp_all

/-! ## `applyOutputs` in closed form -/

/-- The final value of the local `want_Y1` of `applyOutputs`. -/
theorem applyOutputs_compressor (now : Nat) (s : State) :
    (applyOutputs now s).compressor =
      (coolGo now s ||
        (s.y1_on && !decide (s.MIN_ON_SEC ≤ u32sub now s.y1_last_change))) := by
  simp [applyOutputs, relayStep, guardStep_loc, guardStep_st, fanOnlyStep_loc, fanOnlyStep_st,
    heatStep_loc, heatStep_st, coolStep_loc, coolStep_st, coolGo, coolDemand, high]

theorem applyOutputs_st (now : Nat) (s : State) :
    (applyOutputs now s).st =
      { s with
        hvacAction :=
          if s.hvacMode = Mode.M_FANONLY then Action.fan
          else if heatDemand s then Action.heating
          else if coolGo now s then Action.cooling else Action.idle,
        y1_on := guardOn now s (coolGo now s),
        y1_last_change :=
          if guardOn now s (coolGo now s) = s.y1_on then s.y1_last_change else now,
        w1_on := heatDemand s,
        w2_on := heatGo2 now s,
        w_call_start := heatTimer now s,
        relay_G := (applyOutputs now s).fan,
        relay_W1 := heatDemand s,
        relay_W2 := heatGo2 now s,
        relay_Y1 :=
          if guardOn now s (coolGo now s) = s.y1_on then s.relay_Y1
          else guardOn now s (coolGo now s) } := by
  simp [applyOutputs, relayStep, guardStep_loc, guardStep_st, fanOnlyStep_loc, fanOnlyStep_st,
    heatStep_loc, heatStep_st, coolStep_loc, coolStep_st, coolGo, coolDemand, high, heatDemand, low,
    heatGo2, heatTimer, bigCall, guardOn]



theorem applyOutputs_heat1 (now : Nat) (s : State) :
    (applyOutputs now s).heat1 = heatDemand s := by
  simp [applyOutputs, relayStep, guardStep_loc, guardStep_st, fanOnlyStep_loc, fanOnlyStep_st,
    heatStep_loc, heatStep_st, coolStep_loc, coolStep_st, heatDemand, low]

theorem applyOutputs_heat2 (now : Nat) (s : State) :
    (applyOutputs now s).heat2 = heatGo2 now s := by
  simp [applyOutputs, relayStep, guardStep_loc, guardStep_st, fanOnlyStep_loc, fanOnlyStep_st,
    heatStep_loc, heatStep_st, coolStep_loc, coolStep_st, heatDemand, low, heatGo2, heatTimer,
    bigCall]

theorem applyOutputs_fan (now : Nat) (s : State) :
    (applyOutputs now s).fan =
      (coolGo now s || (heatDemand s && s.FAN_WITH_HEAT) ||
        decide (s.hvacMode = Mode.M_FANONLY) || (applyOutputs now s).compressor) := by
  simp [applyOutputs, relayStep, guardStep_loc, guardStep_st, fanOnlyStep_loc, fanOnlyStep_st,
    heatStep_loc, heatStep_st, coolStep_loc, coolStep_st, heatDemand, low, coolGo, coolDemand, high]

theorem applyOutputs_blocked (now : Nat) (s : State) :
    (applyOutputs now s).blocked = (coolDemand s && !coolGo now s) := by
  simp [applyOutputs, relayStep, guardStep_loc, guardStep_st, fanOnlyStep_loc, fanOnlyStep_st,
    heatStep_loc, heatStep_st, coolStep_loc, coolStep_st, coolGo, coolDemand, high]
  intro _ _ h1 h2 h3
  rcases h1 with h1 | h1
  · simp [h1] at h2
  · exact absurd h1 (not_le.mpr h3)

/-! ## The handlers leave the guard and the stage state alone -/

theorem setMode_frame (m : String) (s : State) :
    (setMode m s).y1_on = s.y1_on ∧ (setMode m s).y1_last_change = s.y1_last_change ∧
      (setMode m s).w_call_start = s.w_call_start ∧ (setMode m s).w1_on = s.w1_on ∧
      (setMode m s).w2_on = s.w2_on := by
  simp only [setMode, allOff]
  split_ifs <;> simp

theorem handle_frame (e : Event) (s : State) :
    (handle e s).y1_on = s.y1_on ∧ (handle e s).y1_last_change = s.y1_last_change ∧
      (handle e s).w_call_start = s.w_call_start ∧ (handle e s).w1_on = s.w1_on ∧
      (handle e s).w2_on = s.w2_on := by
  cases e with
  | ambient j =>
    rcases j with ⟨a, b⟩
    cases a <;> cases b <;> simp [handle, handleAmbient]
  | cmd j =>
    rcases j with ⟨m, a, b, c, d, e, f, g⟩
    have hm := setMode_frame
    cases m <;> cases a <;> cases b <;> cases c <;> cases d <;> cases e <;> cases f <;>
      cases g <;> simp [handle, handleCmd, hm]

/-! ## C1: compressor minimum dwell -/

theorem applyOutputs_guard (now : Nat) (s : State) :
    (s.y1_on = false ∧ (applyOutputs now s).st.y1_on = true ∧
        s.MIN_OFF_SEC ≤ u32sub now s.y1_last_change ∧
        (applyOutputs now s).st.y1_last_change = now) ∨
    (s.y1_on = true ∧ (applyOutputs now s).st.y1_on = false ∧
        s.MIN_ON_SEC ≤ u32sub now s.y1_last_change ∧
        (applyOutputs now s).st.y1_last_change = now) ∨
    ((applyOutputs now s).st.y1_on = s.y1_on ∧
        (applyOutputs now s).st.y1_last_change = s.y1_last_change) := by
  simp only [applyOutputs_st, guardOn]
  by_cases hy : s.y1_on = true <;> by_cases hg : coolGo now s = true <;>
    by_cases h3 : s.MIN_OFF_SEC ≤ u32sub now s.y1_last_change <;>
    by_cases h4 : s.MIN_ON_SEC ≤ u32sub now s.y1_last_change <;>
    simp [hy, hg, h3, h4]

theorem onMqtt_dwell (st : Step) (s : State) (hs : s.y1_last_change ≤ st.now)
    (hn : st.now < U32) :
    Rec.dwellOk (onMqtt st s) ∧ (onMqtt st s).out.st.y1_last_change ≤ st.now := by
  obtain ⟨h1, h2, -⟩ := handle_frame st.ev s
  have hpre : (handle st.ev s).y1_last_change ≤ st.now := by rw [h2]; exact hs
  have hsub := u32sub_eq hpre hn
  have hg := applyOutputs_guard st.now (handle st.ev s)
  rw [hsub] at hg
  refine ⟨⟨h1, h2, hpre, hg⟩, ?_⟩
  show (applyOutputs st.now (handle st.ev s)).st.y1_last_change ≤ st.now
  rcases hg with ⟨-, -, -, h⟩ | ⟨-, -, -, h⟩ | ⟨-, h⟩
  · exact le_of_eq h
  · exact le_of_eq h
  · rw [h]; exact hpre

theorem trace_dwell (steps : List Step) :
    ∀ (s : State) (t : Nat), s.y1_last_change ≤ t → clockOk t steps = true →
      ∀ r ∈ trace s steps, Rec.dwellOk r := by
  induction steps with
  | nil => intro s t _ _ r hr; simp [trace] at hr
  | cons st rest ih =>
    intro s t hs hc r hr
    simp only [clockOk, Bool.and_eq_true, decide_eq_true_eq] at hc
    obtain ⟨⟨h1, h2⟩, h3⟩ := hc
    have hstep := onMqtt_dwell st s (le_trans hs h1) h2
    simp only [trace, List.mem_cons] at hr
    rcases hr with rfl | hr
    · exact hstep.1
    · exact ih _ st.now hstep.2 h3 r hr

/-- C1. Along every run of dispatched messages from the initial state with a
clock that never goes back, the handler leaves the guard flag `y1_on` and
`y1_last_change` as they were, and the evaluation either switches `y1_on` from
false to true with `now - y1_last_change >= MIN_OFF_SEC`, or from true to false
with `now - y1_last_change >= MIN_ON_SEC`, setting `y1_last_change = now` in both
cases, or leaves `y1_on` and `y1_last_change` unchanged. -/
theorem compressor_min_dwell (steps : List Step) (hc : clockOk 0 steps = true) :
    ∀ r ∈ trace init steps,
      r.pre.y1_on = r.before.y1_on ∧
      r.pre.y1_last_change = r.before.y1_last_change ∧
      r.pre.y1_last_change ≤ r.now ∧
      ((r.pre.y1_on = false ∧ r.out.st.y1_on = true ∧
          r.pre.MIN_OFF_SEC ≤ r.now - r.pre.y1_last_change ∧
          r.out.st.y1_last_change = r.now) ∨
       (r.pre.y1_on = true ∧ r.out.st.y1_on = false ∧
          r.pre.MIN_ON_SEC ≤ r.now - r.pre.y1_last_change ∧
          r.out.st.y1_last_change = r.now) ∨
       (r.out.st.y1_on = r.pre.y1_on ∧
          r.out.st.y1_last_change = r.pre.y1_last_change)) :=
  fun r hr => trace_dwell steps init 0 (Nat.le_refl 0) hc r hr

/-- The dwell rule on the record of `coolRun` that starts the compressor. -/
theorem compressor_min_dwell_witness :
    clockOk 0 coolRun = true ∧
    coolStart.pre.y1_on = coolStart.before.y1_on ∧
    coolStart.pre.y1_last_change = coolStart.before.y1_last_change ∧
    coolStart.pre.y1_last_change ≤ coolStart.now ∧
    ((coolStart.pre.y1_on = false ∧ coolStart.out.st.y1_on = true ∧
        coolStart.pre.MIN_OFF_SEC ≤ coolStart.now - coolStart.pre.y1_last_change ∧
        coolStart.out.st.y1_last_change = coolStart.now) ∨
     (coolStart.pre.y1_on = true ∧ coolStart.out.st.y1_on = false ∧
        coolStart.pre.MIN_ON_SEC ≤ coolStart.now - coolStart.pre.y1_last_change ∧
        coolStart.out.st.y1_last_change = coolStart.now) ∨
     (coolStart.out.st.y1_on = coolStart.pre.y1_on ∧
        coolStart.out.st.y1_last_change = coolStart.pre.y1_last_change)) :=
  ⟨by decide!, compressor_min_dwell coolRun (by decide!) coolStart (by decide!)⟩

/-! ## C2: mode Off -/

theorem off_outputs (now : Nat) (s : State) (hm : s.hvacMode = Mode.M_OFF) :
    (applyOutputs now s).heat1 = false ∧
    (applyOutputs now s).heat2 = false ∧
    (applyOutputs now s).st.hvacAction = Action.idle ∧
    (applyOutputs now s).blocked = false ∧
    (applyOutputs now s).compressor =
      (s.y1_on && !decide (s.MIN_ON_SEC ≤ u32sub now s.y1_last_change)) ∧
    (applyOutputs now s).fan = (applyOutputs now s).compressor := by
  have hc : coolDemand s = false := by simp [coolDemand, hm]
  have hh : heatDemand s = false := by simp [heatDemand, hm]
  have hg : coolGo now s = false := by simp [coolGo, hc]
  refine ⟨?_, ?_, ?_, ?_, ?_, ?_⟩
  · rw [applyOutputs_heat1, hh]
  · simp [applyOutputs_heat2, heatGo2, hh]
  · simp [applyOutputs_st, hm, hh, hg]
  · simp [applyOutputs_blocked, hc]
  · simp [applyOutputs_compressor, hg]
  · simp [applyOutputs_fan, hg, hh, hm]

/-- C2. The command `mode = off` arriving 49 s after the compressor started:
the evaluation runs in mode Off and yet leaves fan and compressor outputs on
and drives the fan relay high; heat outputs are off, the action is idle and
nothing is blocked. -/
theorem off_inside_min_on_keeps_outputs :
    offEarly.pre.hvacMode = Mode.M_OFF ∧
    offEarly.pre.y1_on = true ∧
    u32sub offEarly.now offEarly.pre.y1_last_change < offEarly.pre.MIN_ON_SEC ∧
    offEarly.out.fan = true ∧
    offEarly.out.compressor = true ∧
    offEarly.out.st.relay_G = true ∧
    offEarly.out.heat1 = false ∧
    offEarly.out.heat2 = false ∧
    offEarly.out.st.hvacAction = Action.idle ∧
    offEarly.out.blocked = false := by
  decide!

/-! ## C3: stage-2 heat is never early -/

theorem heatTimer_cases (now : Nat) (s : State) :
    heatTimer now s = 0 ∨
    (heatDemand s = true ∧ bigCall s = true ∧ s.w_call_start = 0 ∧ heatTimer now s = now) ∨
    (heatDemand s = true ∧ s.w_call_start ≠ 0 ∧ heatTimer now s = s.w_call_start) := by
  unfold heatTimer
  by_cases h1 : heatDemand s = true <;> by_cases h2 : bigCall s = true <;>
    by_cases h3 : s.w_call_start = 0 <;> by_cases h4 : (s.w1_on || s.w2_on) = true <;>
    simp [h1, h2, h3, h4]

theorem heatTimer_le (now t : Nat) (s : State) (hs : s.w_call_start ≤ t) (ht : t ≤ now) :
    heatTimer now s ≤ now := by
  rcases heatTimer_cases now s with h | ⟨-, -, -, h⟩ | ⟨-, -, h⟩ <;> rw [h]
  · exact Nat.zero_le _
  · exact Nat.le_trans hs ht

theorem heatGo2_elim (now : Nat) (s : State) (h : heatGo2 now s = true) :
    heatDemand s = true ∧ bigCall s = true ∧
      s.STAGE2_DELAY_SEC ≤ u32sub now (if s.w_call_start = 0 then now else s.w_call_start) := by
  simp only [heatGo2, Bool.and_eq_true, decide_eq_true_eq] at h
  obtain ⟨⟨h1, h2⟩, h3⟩ := h
  refine ⟨h1, h2, ?_⟩
  simpa [heatTimer, h1, h2] using h3

theorem trace_stage2 (steps : List Step) :
    ∀ (s : State) (t : Nat), s.w_call_start ≤ t → clockOk t steps = true →
      ∀ (l : List Rec) (x : Rec) (r : List Rec), trace s steps = l ++ x :: r →
        x.out.heat2 = true →
        heatDemand x.pre = true ∧ bigCall x.pre = true ∧ t ≤ x.now ∧
        ((∃ (a : List Rec) (e : Rec) (b : List Rec),
            l ++ [x] = a ++ e :: b ∧ e.now ≤ x.now ∧
            x.pre.STAGE2_DELAY_SEC ≤ x.now - e.now ∧
            heatDemand e.pre = true ∧ bigCall e.pre = true ∧
            ∀ y ∈ e :: b, heatDemand y.pre = true) ∨
         (s.w_call_start ≠ 0 ∧ x.pre.STAGE2_DELAY_SEC ≤ x.now - s.w_call_start ∧
            ∀ y ∈ l ++ [x], heatDemand y.pre = true)) := by
  induction steps with
  | nil =>
    intro s t _ _ l x r hx _
    simp [trace] at hx
  | cons st rest ih =>
    intro s t hs hc l x r hx h2
    simp only [clockOk, Bool.and_eq_true, decide_eq_true_eq] at hc
    obtain ⟨⟨hc1, hc2⟩, hc3⟩ := hc
    obtain ⟨-, -, hw, -, -⟩ := handle_frame st.ev s
    have hpre : (handle st.ev s).w_call_start ≤ st.now := by
      rw [hw]; exact le_trans hs hc1
    simp only [trace] at hx
    cases l with
    | nil =>
      simp only [List.nil_append, List.cons.injEq] at hx
      obtain ⟨hx, -⟩ := hx
      subst hx
      have h2' : heatGo2 st.now (handle st.ev s) = true := by
        rw [← applyOutputs_heat2]; exact h2
      obtain ⟨hd, hb, hdel⟩ := heatGo2_elim _ _ h2'
      refine ⟨hd, hb, hc1, ?_⟩
      by_cases h0 : s.w_call_start = 0
      · left
        refine ⟨[], onMqtt st s, [], rfl, le_refl _, ?_, hd, hb, ?_⟩
        · rw [hw, if_pos h0, u32sub_self] at hdel
          exact le_trans hdel (Nat.zero_le _)
        · intro y hy
          simp only [List.mem_singleton] at hy
          subst hy
          exact hd
      · right
        refine ⟨h0, ?_, ?_⟩
        · rw [hw, if_neg h0, u32sub_eq (le_trans hs hc1) hc2] at hdel
          exact hdel
        · intro y hy
          simp only [List.nil_append, List.mem_singleton] at hy
          subst hy
          exact hd
    | cons r0 l' =>
      simp only [List.cons_append, List.cons.injEq] at hx
      obtain ⟨hr0, hx⟩ := hx
      have hs' : (onMqtt st s).out.st.w_call_start = heatTimer st.now (handle st.ev s) := by
        simp [onMqtt, applyOutputs_st]
      have hle : (onMqtt st s).out.st.w_call_start ≤ st.now := by
        rw [hs']; exact heatTimer_le _ _ _ hpre (le_refl _)
      obtain ⟨hd, hb, hnow, halt⟩ := ih _ st.now hle hc3 l' x r hx h2
      refine ⟨hd, hb, le_trans hc1 hnow, ?_⟩
      rcases halt with ⟨a, e, b, hab, h1, h3, h4, h5, h6⟩ | ⟨hne, hdel, hall⟩
      · left
        refine ⟨r0 :: a, e, b, ?_, h1, h3, h4, h5, h6⟩
        simp [hab]
      · rw [hs'] at hne hdel
        rcases heatTimer_cases st.now (handle st.ev s) with h | ⟨g1, g2, g3, g4⟩ | ⟨g1, g2, g3⟩
        · exact absurd h hne
        · left
          rw [g4] at hdel
          refine ⟨[], r0, l' ++ [x], by simp, ?_, ?_, ?_, ?_, ?_⟩
          · rw [← hr0]; exact hnow
          · rw [← hr0]; exact hdel
          · rw [← hr0]; exact g1
          · rw [← hr0]; exact g2
          · intro y hy
            simp only [List.mem_cons] at hy
            rcases hy with rfl | hy
            · rw [← hr0]; exact g1
            · exact hall y hy
        · right
          rw [g3, hw] at hdel
          rw [hw] at g2
          refine ⟨g2, hdel, ?_⟩
          intro y hy
          simp only [List.cons_append, List.mem_cons] at hy
          rcases hy with rfl | hy
          · rw [← hr0]; exact g1
          · exact hall y hy

/-- C3. Along every run of dispatched messages from the initial state with a
clock that never goes back, an evaluation that yields heat2 on has heat demand
with `target - current >= STAGE2_DELTA_F`, and some evaluation `e` of the run, no
later than it and at least `STAGE2_DELAY_SEC` before it on the clock, had heat
demand with `target - current >= STAGE2_DELTA_F`, with heat demand at every
evaluation from `e` up to the current one. -/
theorem stage2_not_early (steps : List Step) (hc : clockOk 0 steps = true)
    (l : List Rec) (x : Rec) (r : List Rec) (hx : trace init steps = l ++ x :: r)
    (h2 : x.out.heat2 = true) :
    heatDemand x.pre = true ∧ bigCall x.pre = true ∧
    ∃ (a : List Rec) (e : Rec) (b : List Rec),
      l ++ [x] = a ++ e :: b ∧ e.now ≤ x.now ∧
      x.pre.STAGE2_DELAY_SEC ≤ x.now - e.now ∧
      heatDemand e.pre = true ∧ bigCall e.pre = true ∧
      ∀ y ∈ e :: b, heatDemand y.pre = true := by
  obtain ⟨hd, hb, -, halt⟩ := trace_stage2 steps init 0 (Nat.le_refl 0) hc l x r hx h2
  refine ⟨hd, hb, ?_⟩
  rcases halt with h | ⟨hne, -, -⟩
  · exact h
  · exact absurd rfl hne

/-- The run `heatRun`: heat2 comes on at 602 s, 600 s after the big call was
first seen. -/
theorem stage2_not_early_witness :
    heatDemand heatRec3.pre = true ∧ bigCall heatRec3.pre = true ∧
    ∃ (a : List Rec) (e : Rec) (b : List Rec),
      [heatRec1, heatRec2] ++ [heatRec3] = a ++ e :: b ∧ e.now ≤ heatRec3.now ∧
      heatRec3.pre.STAGE2_DELAY_SEC ≤ heatRec3.now - e.now ∧
      heatDemand e.pre = true ∧ bigCall e.pre = true ∧
      ∀ y ∈ e :: b, heatDemand y.pre = true :=
  stage2_not_early heatRun (by decide!) [heatRec1, heatRec2] heatRec3 [] rfl (by decide!)

/-! ## C4: idempotence of the evaluation -/

theorem applyOutputs_led (now : Nat) (s : State) :
    (applyOutputs now s).led =
      updateLed (applyOutputs now s).st (applyOutputs now s).compressor
        (applyOutputs now s).heat1 (applyOutputs now s).heat2 (applyOutputs now s).fan
        (applyOutputs now s).blocked := rfl

theorem applyOutputs_demands (now : Nat) (s : State) :
    coolDemand (applyOutputs now s).st = coolDemand s ∧
    heatDemand (applyOutputs now s).st = heatDemand s ∧
    bigCall (applyOutputs now s).st = bigCall s := by
  simp [applyOutputs_st, coolDemand, heatDemand, bigCall, high, low]

theorem applyOutputs_coolGo (now : Nat) (s : State) :
    coolGo now (applyOutputs now s).st = coolGo now s := by
  have hd := (applyOutputs_demands now s).1
  unfold coolGo at *
  rw [hd]
  simp only [applyOutputs_st, guardOn, coolGo]
  by_cases hc : coolDemand s = true <;> by_cases hy : s.y1_on = true <;>
    by_cases h3 : s.MIN_OFF_SEC ≤ u32sub now s.y1_last_change <;>
    by_cases h4 : s.MIN_ON_SEC ≤ u32sub now s.y1_last_change <;>
    simp [hc, hy, h3, h4, u32sub_self]

theorem applyOutputs_guardOn (now : Nat) (s : State) :
    guardOn now (applyOutputs now s).st (coolGo now s) = guardOn now s (coolGo now s) := by
  simp only [applyOutputs_st, guardOn, coolGo]
  by_cases hc : coolDemand s = true <;> by_cases hy : s.y1_on = true <;>
    by_cases h3 : s.MIN_OFF_SEC ≤ u32sub now s.y1_last_change <;>
    by_cases h4 : s.MIN_ON_SEC ≤ u32sub now s.y1_last_change <;>
    simp [hc, hy, h3, h4, u32sub_self]

theorem applyOutputs_heatTimer (now : Nat) (s : State) :
    heatTimer now (applyOutputs now s).st = heatTimer now s := by
  obtain ⟨-, hh, hb⟩ := applyOutputs_demands now s
  unfold heatTimer
  rw [hh, hb]
  simp only [applyOutputs_st, heatTimer]
  by_cases h1 : heatDemand s = true <;> by_cases h2 : bigCall s = true <;>
    by_cases h3 : s.w_call_start = 0 <;> simp [h1, h2, h3]

theorem applyOutputs_heatGo2 (now : Nat) (s : State) :
    heatGo2 now (applyOutputs now s).st = heatGo2 now s := by
  obtain ⟨-, hh, hb⟩ := applyOutputs_demands now s
  unfold heatGo2
  rw [hh, hb, applyOutputs_heatTimer]
  simp [applyOutputs_st]

theorem applyOutputs_compressor_again (now : Nat) (s : State) :
    (applyOutputs now (applyOutputs now s).st).compressor = (applyOutputs now s).compressor := by
  rw [applyOutputs_compressor, applyOutputs_coolGo, applyOutputs_compressor]
  simp only [applyOutputs_st, guardOn, coolGo]
  by_cases hc : coolDemand s = true <;> by_cases hy : s.y1_on = true <;>
    by_cases h3 : s.MIN_OFF_SEC ≤ u32sub now s.y1_last_change <;>
    by_cases h4 : s.MIN_ON_SEC ≤ u32sub now s.y1_last_change <;>
    simp [hc, hy, h3, h4, u32sub_self]

theorem applyOutputs_st_again (now : Nat) (s : State) :
    (applyOutputs now (applyOutputs now s).st).st = (applyOutputs now s).st := by
  obtain ⟨hcd, hh, hb⟩ := applyOutputs_demands now s
  rw [applyOutputs_st now (applyOutputs now s).st, applyOutputs_fan now (applyOutputs now s).st,
    applyOutputs_compressor_again, applyOutputs_coolGo, applyOutputs_guardOn,
    applyOutputs_heatTimer, applyOutputs_heatGo2, hh]
  rw [applyOutputs_st now s, applyOutputs_fan now s]
  simp

/-- C4. Running `applyOutputs` a second time at the same clock value on the
state the first run left (same mode, target, telemetry and tunables) gives the
same outputs, action label and blocked flag, and leaves the whole state,
guard and stage state included, as the first run left it. -/
theorem applyOutputs_idempotent (now : Nat) (s : State) :
    applyOutputs now (applyOutputs now s).st = applyOutputs now s := by
  obtain ⟨hcd, hh, hb⟩ := applyOutputs_demands now s
  have hst := applyOutputs_st_again now s
  have hco := applyOutputs_compressor_again now s
  have hfan : (applyOutputs now (applyOutputs now s).st).fan = (applyOutputs now s).fan := by
    rw [applyOutputs_fan now (applyOutputs now s).st, hco, applyOutputs_coolGo, hh,
      applyOutputs_fan now s]
    simp [applyOutputs_st]
  have hh1 : (applyOutputs now (applyOutputs now s).st).heat1 = (applyOutputs now s).heat1 := by
    rw [applyOutputs_heat1, applyOutputs_heat1, hh]
  have hh2 : (applyOutputs now (applyOutputs now s).st).heat2 = (applyOutputs now s).heat2 := by
    rw [applyOutputs_heat2, applyOutputs_heat2, applyOutputs_heatGo2]
  have hbl : (applyOutputs now (applyOutputs now s).st).blocked = (applyOutputs now s).blocked := by
    rw [applyOutputs_blocked, applyOutputs_blocked, applyOutputs_coolGo, hcd]
  apply Eval.ext hst hfan hh1 hh2 hco hbl
  rw [applyOutputs_led, applyOutputs_led now s, hst, hfan, hh1, hh2, hco, hbl]

/-! ## C5, C6: the cool start -/

/-- C5, as stated, fails: in mode HeatCool with deadband -10, target 72 and a
reading of 75, cool demand holds, the compressor is off and has rested for
`MIN_OFF_SEC`; the evaluation starts the compressor but the action label is
heating, not cooling. -/
theorem cool_start_action_heating :
    negBand.hvacMode = Mode.M_HEATCOOL ∧
    negBand.currentTempF > negBand.targetTempF + negBand.DEADBAND_F / 2 ∧
    negBand.y1_on = false ∧
    negBand.MIN_OFF_SEC ≤ u32sub 301 negBand.y1_last_change ∧
    (applyOutputs 301 negBand).compressor = true ∧
    (applyOutputs 301 negBand).st.hvacAction = Action.heating := by
  decide!

/-- C5, amended. With cool demand and the compressor off: if
`now - y1_last_change >= MIN_OFF_SEC` the evaluation gives compressor on, fan on,
not blocked, `y1_on = true`, `y1_last_change = now`, and the action cooling when
there is no heat demand in the same evaluation; otherwise it gives compressor
off and blocked, with `y1_on` and `y1_last_change` unchanged. -/
theorem cool_start_gating (now : Nat) (s : State)
    (hm : s.hvacMode = Mode.M_COOL ∨ s.hvacMode = Mode.M_HEATCOOL)
    (ht : s.currentTempF > s.targetTempF + s.DEADBAND_F / 2)
    (hoff : s.y1_on = false) :
    (s.MIN_OFF_SEC ≤ u32sub now s.y1_last_change →
      (applyOutputs now s).compressor = true ∧
      (applyOutputs now s).fan = true ∧
      (heatDemand s = false → (applyOutputs now s).st.hvacAction = Action.cooling) ∧
      (applyOutputs now s).blocked = false ∧
      (applyOutputs now s).st.y1_on = true ∧
      (applyOutputs now s).st.y1_last_change = now) ∧
    (¬ s.MIN_OFF_SEC ≤ u32sub now s.y1_last_change →
      (applyOutputs now s).compressor = false ∧
      (applyOutputs now s).blocked = true ∧
      (applyOutputs now s).st.y1_on = false ∧
      (applyOutputs now s).st.y1_last_change = s.y1_last_change) := by
  have hcd : coolDemand s = true := by
    simp only [coolDemand, high, Bool.and_eq_true, Bool.or_eq_true, beq_iff_eq,
      decide_eq_true_eq]
    exact ⟨hm, ht⟩
  have hfo : s.hvacMode ≠ Mode.M_FANONLY := by
    rcases hm with h | h <;> simp [h]
  constructor
  · intro h
    have hg : coolGo now s = true := by simp [coolGo, hcd, h]
    refine ⟨?_, ?_, ?_, ?_, ?_, ?_⟩
    · simp [applyOutputs_compressor, hg]
    · simp [applyOutputs_fan, hg]
    · intro hh
      simp [applyOutputs_st, hg, hh, hfo]
    · simp [applyOutputs_blocked, hg]
    · simp [applyOutputs_st, guardOn, hg, hoff, h]
    · simp [applyOutputs_st, guardOn, hg, hoff, h]
  · intro h
    have hg : coolGo now s = false := by simp [coolGo, hcd, h, hoff]
    refine ⟨?_, ?_, ?_, ?_⟩
    · simp [applyOutputs_compressor, hg, hoff]
    · simp [applyOutputs_blocked, hg, hcd]
    · simp [applyOutputs_st, guardOn, hg, hoff]
    · simp [applyOutputs_st, guardOn, hg, hoff]

/-- The scenarios of C5: compressor off for 301 s starts it, fan on, action
cooling, not blocked; off for 100 s keeps it off and blocked. -/
theorem cool_start_gating_witness :
    ((applyOutputs 301 coolCall).compressor = true ∧
      (applyOutputs 301 coolCall).fan = true ∧
      (heatDemand coolCall = false → (applyOutputs 301 coolCall).st.hvacAction = Action.cooling) ∧
      (applyOutputs 301 coolCall).blocked = false ∧
      (applyOutputs 301 coolCall).st.y1_on = true ∧
      (applyOutputs 301 coolCall).st.y1_last_change = 301) ∧
    ((applyOutputs 100 coolCall).compressor = false ∧
      (applyOutputs 100 coolCall).blocked = true ∧
      (applyOutputs 100 coolCall).st.y1_on = false ∧
      (applyOutputs 100 coolCall).st.y1_last_change = coolCall.y1_last_change) :=
  ⟨(cool_start_gating 301 coolCall (by decide!) (by decide!) (by decide!)).1 (by decide!),
   (cool_start_gating 100 coolCall (by decide!) (by decide!) (by decide!)).2 (by decide!)⟩

/-- C6, as stated, fails: a reading of 75 degrees arrives 100 s after boot in
mode Cool (target 72, deadband 0.8, `MIN_OFF_SEC` 300); cool demand holds with
no heat demand, the start is blocked, and the action label is idle. -/
theorem blocked_cool_action_idle :
    coolDemand coolCall = true ∧
    heatDemand coolCall = false ∧
    coolCall.y1_on = false ∧
    u32sub 100 coolCall.y1_last_change < coolCall.MIN_OFF_SEC ∧
    (applyOutputs 100 coolCall).blocked = true ∧
    (applyOutputs 100 coolCall).st.hvacAction = Action.idle := by
  decide!

/-- C6, amended. With cool demand and no heat demand in the same evaluation,
the action label is cooling when the compressor is on or has rested for
`MIN_OFF_SEC`; when the compressor is off and its start is blocked, the label
is idle and the blocked flag is set. -/
theorem cool_action_label (now : Nat) (s : State)
    (hm : s.hvacMode = Mode.M_COOL ∨ s.hvacMode = Mode.M_HEATCOOL)
    (ht : s.currentTempF > s.targetTempF + s.DEADBAND_F / 2)
    (hh : heatDemand s = false) :
    ((s.y1_on = true ∨ s.MIN_OFF_SEC ≤ u32sub now s.y1_last_change) →
      (applyOutputs now s).st.hvacAction = Action.cooling ∧
      (applyOutputs now s).blocked = false) ∧
    ((s.y1_on = false ∧ u32sub now s.y1_last_change < s.MIN_OFF_SEC) →
      (applyOutputs now s).st.hvacAction = Action.idle ∧
      (applyOutputs now s).blocked = true ∧
      (applyOutputs now s).compressor = false) := by
  have hcd : coolDemand s = true := by
    simp only [coolDemand, high, Bool.and_eq_true, Bool.or_eq_true, beq_iff_eq,
      decide_eq_true_eq]
    exact ⟨hm, ht⟩
  have hfo : s.hvacMode ≠ Mode.M_FANONLY := by
    rcases hm with h | h <;> simp [h]
  constructor
  · intro h
    have hg : coolGo now s = true := by
      rcases h with h | h <;> simp [coolGo, hcd, h]
    simp [applyOutputs_st, applyOutputs_blocked, hg, hh, hfo]
  · rintro ⟨h1, h2⟩
    have hg : coolGo now s = false := by simp [coolGo, hcd, h1, h2]
    simp [applyOutputs_st, applyOutputs_blocked, applyOutputs_compressor, hg, hh, hfo, hcd, h1]

/-- The two cases of the cool label on the scenario state: cooling at 301 s,
idle and blocked at 100 s. -/
theorem cool_action_label_witness :
    ((applyOutputs 301 coolCall).st.hvacAction = Action.cooling ∧
      (applyOutputs 301 coolCall).blocked = false) ∧
    ((applyOutputs 100 coolCall).st.hvacAction = Action.idle ∧
      (applyOutputs 100 coolCall).blocked = true ∧
      (applyOutputs 100 coolCall).compressor = false) :=
  ⟨(cool_action_label 301 coolCall (by decide!) (by decide!) (by decide!)).1 (by decide!),
   (cool_action_label 100 coolCall (by decide!) (by decide!) (by decide!)).2 (by decide!)⟩

/-! ## C7: the stage-2 activation time -/

theorem stage2_timer_start (now : Nat) (s : State) (hd : heatDemand s = true)
    (hb : bigCall s = true) (h0 : s.w_call_start = 0) :
    (applyOutputs now s).st.w_call_start = now := by
  simp [applyOutputs_st, heatTimer, hd, hb, h0]

theorem stage2_timer_running (now : Nat) (s : State) (hd : heatDemand s = true)
    (hb : bigCall s = true) (h0 : s.w_call_start ≠ 0) (hle : s.w_call_start ≤ now)
    (hn : now < U32) :
    ((applyOutputs now s).heat2 = true ↔ s.STAGE2_DELAY_SEC ≤ now - s.w_call_start) ∧
    (applyOutputs now s).st.w_call_start = s.w_call_start := by
  simp [applyOutputs_st, applyOutputs_heat2, heatGo2, heatTimer, hd, hb, h0, u32sub_eq hle hn]

/-- C7. The run `bootRun`: the big call in mode Heat (target 74, reading 68) is
first seen at clock value 0 with the stage timer not running, and holds again
at 600 s with `STAGE2_DELAY_SEC = 600`; the evaluation at 0 s leaves
`w_call_start` at 0, the one at 600 s restarts the timer at 600 and leaves
heat2 off. -/
theorem stage2_timer_lost_at_clock_zero :
    trace init bootRun = [bootRec1, bootRec2, bootRec3] ∧
    heatDemand bootRec1.pre = false ∧
    bootRec2.now = 0 ∧
    bootRec2.pre.hvacMode = Mode.M_HEAT ∧
    bootRec2.pre.w_call_start = 0 ∧
    heatDemand bootRec2.pre = true ∧ bigCall bootRec2.pre = true ∧
    bootRec2.out.st.w_call_start = 0 ∧
    bootRec3.now = 600 ∧
    heatDemand bootRec3.pre = true ∧ bigCall bootRec3.pre = true ∧
    bootRec3.pre.STAGE2_DELAY_SEC ≤ bootRec3.now - bootRec2.now ∧
    bootRec3.out.heat2 = false ∧
    bootRec3.out.st.w_call_start = 600 := by
  decide!

/-! ## C8: the two demand branches -/

/-- C8, as stated, fails: the dispatcher accepts `deadband_f = -10`; with mode
HeatCool, target 72 and a reading of 75 both demand conditions hold, and the
evaluation runs both branches (compressor and stage-1 heat on together). -/
theorem both_demands_with_negative_deadband :
    negBand.hvacMode = Mode.M_HEATCOOL ∧
    negBand.DEADBAND_F = -10 ∧
    negBand.currentTempF > negBand.targetTempF + negBand.DEADBAND_F / 2 ∧
    negBand.currentTempF < negBand.targetTempF - negBand.DEADBAND_F / 2 ∧
    coolDemand negBand = true ∧
    heatDemand negBand = true ∧
    (applyOutputs 301 negBand).compressor = true ∧
    (applyOutputs 301 negBand).heat1 = true := by
  decide!

/-- C8, amended. When the deadband is not negative, the cool-demand condition
and the heat-demand condition of `applyOutputs` never hold together, whatever
the mode, target and reading. -/
theorem demands_exclusive (s : State) (hd : 0 ≤ s.DEADBAND_F) :
    ¬ (s.currentTempF > s.targetTempF + s.DEADBAND_F / 2 ∧
        s.currentTempF < s.targetTempF - s.DEADBAND_F / 2) ∧
    ¬ (coolDemand s = true ∧ heatDemand s = true) := by
  have key : ¬ (s.currentTempF > s.targetTempF + s.DEADBAND_F / 2 ∧
      s.currentTempF < s.targetTempF - s.DEADBAND_F / 2) := by
    rintro ⟨h1, h2⟩
    linarith
  refine ⟨key, ?_⟩
  rintro ⟨h1, h2⟩
  simp only [coolDemand, heatDemand, high, low, Bool.and_eq_true, decide_eq_true_eq] at h1 h2
  exact key ⟨h1.2, h2.2⟩

/-- The default deadband 0.8 is not negative: no double demand in the initial
state. -/
theorem demands_exclusive_witness :
    0 ≤ init.DEADBAND_F ∧
    ¬ (init.currentTempF > init.targetTempF + init.DEADBAND_F / 2 ∧
        init.currentTempF < init.targetTempF - init.DEADBAND_F / 2) ∧
    ¬ (coolDemand init = true ∧ heatDemand init = true) :=
  ⟨by decide!, demands_exclusive init (by decide!)⟩

/-! ## C9: mode Off and the last-transition timestamp -/

/-- C9, as stated, fails: the command `mode = off` arrives 399 s after the
compressor started; the evaluation runs in mode Off, switches `y1_on` off and
moves `y1_last_change` from 301 to 700. -/
theorem off_evaluation_moves_last_change :
    offLate.pre.hvacMode = Mode.M_OFF ∧
    offLate.pre.y1_on = true ∧
    offLate.pre.y1_last_change = 301 ∧
    offLate.out.st.y1_on = false ∧
    offLate.out.st.y1_last_change = 700 := by
  decide!

/-- C9, amended. An evaluation in mode Off leaves `y1_last_change` unchanged
unless the compressor flag is on and `now - y1_last_change >= MIN_ON_SEC`; in
that case it switches `y1_on` off and sets `y1_last_change = now`. -/
theorem off_last_change (now : Nat) (s : State) (hm : s.hvacMode = Mode.M_OFF) :
    ((s.y1_on = true ∧ s.MIN_ON_SEC ≤ u32sub now s.y1_last_change) →
      (applyOutputs now s).st.y1_on = false ∧
      (applyOutputs now s).st.y1_last_change = now) ∧
    (¬ (s.y1_on = true ∧ s.MIN_ON_SEC ≤ u32sub now s.y1_last_change) →
      (applyOutputs now s).st.y1_on = s.y1_on ∧
      (applyOutputs now s).st.y1_last_change = s.y1_last_change) := by
  have hg : coolGo now s = false := by simp [coolGo, coolDemand, hm]
  constructor
  · rintro ⟨h1, h2⟩
    simp [applyOutputs_st, guardOn, hg, h1, h2]
  · intro h
    by_cases h1 : s.y1_on = true
    · have h2 : ¬ s.MIN_ON_SEC ≤ u32sub now s.y1_last_change := fun h2 => h ⟨h1, h2⟩
      simp [applyOutputs_st, guardOn, hg, h1, h2]
    · simp [applyOutputs_st, guardOn, hg, h1]

/-- The two cases of the Off evaluation on the cooling run: at 700 s the
timestamp moves to 700, at 350 s the guard stays as it was. -/
theorem off_last_change_witness :
    (offLate.out.st.y1_on = false ∧ offLate.out.st.y1_last_change = 700) ∧
    (offEarly.out.st.y1_on = offEarly.pre.y1_on ∧
      offEarly.out.st.y1_last_change = offEarly.pre.y1_last_change) :=
  ⟨(off_last_change 700 offLate.pre (by decide!)).1 (by decide!),
   (off_last_change 350 offEarly.pre (by decide!)).2 (by decide!)⟩

/-! ## C10: the relay lines -/

theorem relays_after_applyOutputs (now : Nat) (s : State) :
    (applyOutputs now s).st.relay_G = (applyOutputs now s).fan ∧
    (applyOutputs now s).st.relay_W1 = (applyOutputs now s).heat1 ∧
    (applyOutputs now s).st.relay_W2 = (applyOutputs now s).heat2 ∧
    (applyOutputs now s).compressor = (applyOutputs now s).st.y1_on ∧
    (s.relay_Y1 = s.y1_on →
      (applyOutputs now s).st.relay_Y1 = (applyOutputs now s).st.y1_on) := by
  refine ⟨?_, ?_, ?_, ?_, ?_⟩
  · simp [applyOutputs_st]
  · simp [applyOutputs_st, applyOutputs_heat1]
  · simp [applyOutputs_st, applyOutputs_heat2]
  · simp only [applyOutputs_compressor, applyOutputs_st, guardOn, coolGo]
    by_cases hc : coolDemand s = true <;> by_cases hy : s.y1_on = true <;>
      by_cases h3 : s.MIN_OFF_SEC ≤ u32sub now s.y1_last_change <;>
      by_cases h4 : s.MIN_ON_SEC ≤ u32sub now s.y1_last_change <;>
      simp [hc, hy, h3, h4]
  · intro h
    simp only [applyOutputs_st]
    split_ifs with h1
    · rw [h1]; exact h
    · rfl

/-- C10. The command `mode = off` arriving 49 s after the compressor started:
`allOff()` drives the Y1 relay low, and the evaluation that follows keeps the
compressor output and the guard flag `y1_on` on without writing the relay; the
G, W1 and W2 relays carry the fan, heat1 and heat2 outputs. -/
theorem y1_relay_differs_from_guard :
    offEarly.out.st.relay_Y1 = false ∧
    offEarly.out.compressor = true ∧
    offEarly.out.st.y1_on = true ∧
    offEarly.out.st.relay_G = offEarly.out.fan ∧
    offEarly.out.st.relay_W1 = offEarly.out.heat1 ∧
    offEarly.out.st.relay_W2 = offEarly.out.heat2 := by
  decide!

/-! ## C11: the minimum-run override -/

/-- C11. In a mode other than Off, with the compressor on, no cool demand and
`now - y1_last_change < MIN_ON_SEC`, the evaluation keeps the compressor output
on, turns the fan output on whatever `FAN_WITH_HEAT` is, does not set blocked,
and leaves `y1_on` and `y1_last_change` unchanged. -/
theorem min_run_override (now : Nat) (s : State)
    (_hm : s.hvacMode ≠ Mode.M_OFF)
    (hon : s.y1_on = true)
    (hc : ¬ ((s.hvacMode = Mode.M_COOL ∨ s.hvacMode = Mode.M_HEATCOOL) ∧
        s.currentTempF > s.targetTempF + s.DEADBAND_F / 2))
    (hel : u32sub now s.y1_last_change < s.MIN_ON_SEC) :
    (applyOutputs now s).compressor = true ∧
    (applyOutputs now s).fan = true ∧
    (applyOutputs now s).blocked = false ∧
    (applyOutputs now s).st.y1_on = true ∧
    (applyOutputs now s).st.y1_last_change = s.y1_last_change := by
  have hcd : coolDemand s = false := by
    simp only [coolDemand, high, Bool.and_eq_false_iff]
    by_cases h1 : s.hvacMode = Mode.M_COOL ∨ s.hvacMode = Mode.M_HEATCOOL
    · right
      have : ¬ s.currentTempF > s.targetTempF + s.DEADBAND_F / 2 := fun h => hc ⟨h1, h⟩
      simpa using this
    · left
      simpa using h1
  have hg : coolGo now s = false := by simp [coolGo, hcd]
  have hlt : ¬ s.MIN_ON_SEC ≤ u32sub now s.y1_last_change := not_le.mpr hel
  have hco : (applyOutputs now s).compressor = true := by
    simp [applyOutputs_compressor, hg, hon, hlt]
  refine ⟨hco, ?_, ?_, ?_, ?_⟩
  · rw [applyOutputs_fan, hco]; simp
  · simp [applyOutputs_blocked, hcd]
  · simp [applyOutputs_st, guardOn, hg, hon, hlt]
  · simp [applyOutputs_st, guardOn, hg, hon, hlt]

/-- The override on the record `minRun`: a reading of 70 degrees 49 s after the
compressor started. -/
theorem min_run_override_witness :
    (applyOutputs 350 minRun.pre).compressor = true ∧
    (applyOutputs 350 minRun.pre).fan = true ∧
    (applyOutputs 350 minRun.pre).blocked = false ∧
    (applyOutputs 350 minRun.pre).st.y1_on = true ∧
    (applyOutputs 350 minRun.pre).st.y1_last_change = minRun.pre.y1_last_change :=
  min_run_override 350 minRun.pre (by decide!) (by decide!) (by decide!) (by decide!)

/-! ## C12: the status priority mapping -/

/-- C12. For every mode, outputs, action label and blocked flag, the LED
routine chosen by `updateLed` shows the signal of the first matching rule of
the specification: off in mode Off; else lockout-alert when blocked; else
cooling when the compressor is on or the action is cooling; else heat-stage-2
or heat-stage-1 (by heat2) when a heat output is on or the action is heating;
else fan when the action is fan or the mode is FanOnly with the fan on; else
idle. Every run of `applyOutputs` calls it on its own outputs. -/
theorem status_priority (s : State) (wantY1 wantW1 wantW2 wantG blocked : Bool) (now : Nat) :
    (updateLed s wantY1 wantW1 wantW2 wantG blocked).status =
      specStatus s.hvacMode wantG wantW1 wantW2 wantY1 s.hvacAction blocked ∧
    (applyOutputs now s).led.status =
      specStatus (applyOutputs now s).st.hvacMode (applyOutputs now s).fan
        (applyOutputs now s).heat1 (applyOutputs now s).heat2 (applyOutputs now s).compressor
        (applyOutputs now s).st.hvacAction (applyOutputs now s).blocked := by
  have key : ∀ (t : State) (y w1 w2 g b : Bool),
      (updateLed t y w1 w2 g b).status = specStatus t.hvacMode g w1 w2 y t.hvacAction b := by
    intro t y w1 w2 g b
    cases hm : t.hvacMode <;> cases ha : t.hvacAction <;> cases y <;> cases w1 <;> cases w2 <;>
      cases g <;> cases b <;>
      simp [updateLed, specStatus, specStatusRules, firstMatch, Led.status, hm, ha]
  refine ⟨key _ _ _ _ _ _, ?_⟩
  rw [applyOutputs_led]
  exact key _ _ _ _ _ _

/-! ## C13: sparse command application -/

theorem mode_field_examples :
    (handleCmd { Cmd.empty with mode := some "Heat_COOL" } init).hvacMode = Mode.M_HEATCOOL ∧
    (handleCmd { Cmd.empty with mode := some "auto" } cooling).hvacMode = Mode.M_COOL := by
  decide!

/-! ## C14: the heartbeat of the main loop -/

/-- C14, as stated, fails: 400 s after boot, in mode Cool with a reading of 75
degrees, the compressor off since boot and `MIN_OFF_SEC = 300`, the start is
due (an evaluation at 400 s would switch the compressor on); the heartbeat pass
of the loop publishes the state and leaves the compressor off, and the pass in
which the next reading arrives switches it on. -/
theorem heartbeat_leaves_due_start :
    coolDemand waiting = true ∧
    waiting.y1_on = false ∧
    waiting.MIN_OFF_SEC ≤ u32sub 400 waiting.y1_last_change ∧
    (applyOutputs 400 waiting).st.y1_on = true ∧
    (loopHeartbeat 400000 waitingLoop).sent = [publishState waiting] ∧
    (loopHeartbeat 400000 waitingLoop).st.y1_on = false ∧
    (loopHeartbeat 400000 waitingLoop).st.relay_Y1 = false ∧
    (loopPass true 400000 none waitingLoop).st.y1_on = false ∧
    (loopPass true 400000 (some (tempIs 75)) waitingLoop).st.y1_on = true := by
  decide!

/-- C14, amended. A heartbeat pass of the main loop does not run the control
engine: it leaves mode, telemetry, tunables, guard state, stage state and relay
lines as they were, and when more than 5000 ms have passed since the last
heartbeat it publishes the current state and restarts the heartbeat timer. A
pass of the loop without a message leaves the state unchanged; a pass with a
message leaves the state of the evaluation that follows the handler. -/
theorem heartbeat_only_publishes (wifiUp : Bool) (ms : Nat) (e : Event) (l : Loop) :
    (loopHeartbeat ms l).st = l.st ∧
    (if 5000 < u32sub ms l.t0
      then (loopHeartbeat ms l).sent = publishState l.st :: l.sent ∧ (loopHeartbeat ms l).t0 = ms
      else loopHeartbeat ms l = l) ∧
    (loopPass wifiUp ms none l).st = l.st ∧
    (loopPass true ms (some e) l).st = (applyOutputs (ms / 1000) (handle e l.st)).st := by
  have hst : ∀ k : Loop, (loopHeartbeat ms k).st = k.st := by
    intro k
    unfold loopHeartbeat
    split_ifs <;> rfl
  refine ⟨hst l, ?_, ?_, ?_⟩
  · unfold loopHeartbeat
    by_cases h : u32sub ms l.t0 > 5000
    · have h' : 5000 < u32sub ms l.t0 := h
      simp [h']
    · have h' : ¬ 5000 < u32sub ms l.t0 := h
      simp [h']
  · cases wifiUp
    · rfl
    · simp only [loopPass]
      exact hst l
  · simp only [loopPass, Bool.not_true, Bool.false_eq_true, if_false]
    rw [hst]
    rfl

/-! ## C15: the compressor output and the guard state -/

theorem applyOutputsAt_same (now : Nat) (s : State) :
    applyOutputsAt now now now s = applyOutputs now s := rfl

theorem applyOutputsAt_compressor (nowCool nowHeat nowGuard : Nat) (s : State) :
    (applyOutputsAt nowCool nowHeat nowGuard s).compressor =
      (coolGo nowCool s ||
        (s.y1_on && !decide (s.MIN_ON_SEC ≤ u32sub nowGuard s.y1_last_change))) := by
  simp [applyOutputsAt, relayStep, guardStep_loc, guardStep_st, fanOnlyStep_loc, fanOnlyStep_st,
    heatStep_loc, heatStep_st, coolStep_loc, coolStep_st, coolGo, coolDemand, high]

theorem applyOutputsAt_y1_on (nowCool nowHeat nowGuard : Nat) (s : State) :
    (applyOutputsAt nowCool nowHeat nowGuard s).st.y1_on =
      guardOn nowGuard s (coolGo nowCool s) := by
  simp [applyOutputsAt, relayStep, guardStep_loc, guardStep_st, fanOnlyStep_loc, fanOnlyStep_st,
    heatStep_loc, heatStep_st, coolStep_loc, coolStep_st, coolGo, coolDemand, high, guardOn]

theorem guardBlocks_guardInput (nowCool nowHeat nowGuard : Nat) (s : State) :
    guardBlocks nowGuard (guardInput nowCool nowHeat s) =
      (coolGo nowCool s && !s.y1_on &&
        !decide (s.MIN_OFF_SEC ≤ u32sub nowGuard s.y1_last_change)) := by
  simp [guardBlocks, guardInput, fanOnlyStep_loc, fanOnlyStep_st,
    heatStep_loc, heatStep_st, coolStep_loc, coolStep_st, coolGo, coolDemand, high]

theorem guard_agrees (nowCool nowHeat nowGuard : Nat) (s : State)
    (h0 : s.y1_last_change ≤ nowCool) (h1 : nowCool ≤ nowGuard) (h2 : nowGuard < U32) :
    (applyOutputsAt nowCool nowHeat nowGuard s).compressor =
      (applyOutputsAt nowCool nowHeat nowGuard s).st.y1_on ∧
    guardBlocks nowGuard (guardInput nowCool nowHeat s) = false := by
  rw [applyOutputsAt_compressor, applyOutputsAt_y1_on, guardBlocks_guardInput]
  have e1 := u32sub_eq h0 (lt_of_le_of_lt h1 h2)
  have e2 := u32sub_eq (le_trans h0 h1) h2
  have mono : s.MIN_OFF_SEC ≤ u32sub nowCool s.y1_last_change →
      s.MIN_OFF_SEC ≤ u32sub nowGuard s.y1_last_change := by
    rw [e1, e2]; omega
  simp only [guardOn, coolGo]
  by_cases hc : coolDemand s = true <;> by_cases hy : s.y1_on = true <;>
    by_cases h3 : s.MIN_OFF_SEC ≤ u32sub nowCool s.y1_last_change <;>
    by_cases h4 : s.MIN_ON_SEC ≤ u32sub nowGuard s.y1_last_change <;>
    simp [hc, hy, h3, h4, mono]

theorem trace_out (steps : List Step) :
    ∀ (s : State) (r : Rec), r ∈ trace s steps → r.out = applyOutputs r.now r.pre := by
  induction steps with
  | nil => intro s r hr; simp [trace] at hr
  | cons st rest ih =>
    intro s r hr
    simp only [trace, List.mem_cons] at hr
    rcases hr with rfl | hr
    · rfl
    · exact ih _ r hr

/-- C15. Along every run of dispatched messages from the initial state with a
clock that never goes back, `y1_last_change` is not in the future when an
evaluation starts; then, also when the clock moves on between the cool block
and the guard block, the final value of `want_Y1` equals `y1_on` after the
evaluation and the blocked branch of the guard block is not taken. -/
theorem compressor_output_is_guard_state (steps : List Step) (hc : clockOk 0 steps = true)
    (r : Rec) (hr : r ∈ trace init steps) (nowHeat nowGuard : Nat)
    (h1 : r.now ≤ nowGuard) (h2 : nowGuard < U32) :
    r.pre.y1_last_change ≤ r.now ∧
    r.out.compressor = r.out.st.y1_on ∧
    (applyOutputsAt r.now nowHeat nowGuard r.pre).compressor =
      (applyOutputsAt r.now nowHeat nowGuard r.pre).st.y1_on ∧
    guardBlocks nowGuard (guardInput r.now nowHeat r.pre) = false ∧
    guardBlocks r.now (guardInput r.now r.now r.pre) = false := by
  have hd := trace_dwell steps init 0 (Nat.le_refl 0) hc r hr
  have hle : r.pre.y1_last_change ≤ r.now := hd.2.2.1
  have hout := trace_out steps init r hr
  have hlt : r.now < U32 := lt_of_le_of_lt h1 h2
  have g1 := guard_agrees r.now nowHeat nowGuard r.pre hle h1 h2
  have g2 := guard_agrees r.now r.now r.now r.pre hle (le_refl _) hlt
  rw [applyOutputsAt_same] at g2
  refine ⟨hle, ?_, g1.1, g1.2, g2.2⟩
  rw [hout]
  exact g2.1

/-- The guard agreement on the record of `coolRun` that starts the compressor,
with the guard block reading the clock one second later. -/
theorem compressor_output_is_guard_state_witness :
    coolStart.pre.y1_last_change ≤ coolStart.now ∧
    coolStart.out.compressor = coolStart.out.st.y1_on ∧
    (applyOutputsAt coolStart.now 301 302 coolStart.pre).compressor =
      (applyOutputsAt coolStart.now 301 302 coolStart.pre).st.y1_on ∧
    guardBlocks 302 (guardInput coolStart.now 301 coolStart.pre) = false ∧
    guardBlocks coolStart.now (guardInput coolStart.now coolStart.now coolStart.pre) = false :=
  compressor_output_is_guard_state coolRun (by decide!) coolStart (by decide!) 301 302
    (by decide!) (by decide!)

/-! ## C16: the stage state invariant -/

theorem applyOutputs_stageOk (now : Nat) (s : State) : StageOk (applyOutputs now s).st := by
  unfold StageOk
  constructor
  · intro h
    have hw : (applyOutputs now s).st.w_call_start = heatTimer now s := by
      simp [applyOutputs_st]
    have h1 : (applyOutputs now s).st.w1_on = heatDemand s := by simp [applyOutputs_st]
    rw [hw] at h
    rw [h1]
    rcases heatTimer_cases now s with g | ⟨g, -⟩ | ⟨g, -⟩
    · exact absurd g h
    · exact g
    · exact g
  · intro h
    have h1 : (applyOutputs now s).st.w1_on = heatDemand s := by simp [applyOutputs_st]
    have h2 : (applyOutputs now s).st.w2_on = heatGo2 now s := by simp [applyOutputs_st]
    rw [h2] at h
    rw [h1]
    exact (heatGo2_elim now s h).1

theorem handle_stageOk (e : Event) (s : State) (h : StageOk s) : StageOk (handle e s) := by
  obtain ⟨-, -, h3, h4, h5⟩ := handle_frame e s
  unfold StageOk at *
  rw [h3, h4, h5]
  exact h

theorem stageOk_reset (s : State) (h : StageOk s) :
    (if s.w1_on || s.w2_on then s.w_call_start else 0) = s.w_call_start := by
  by_cases h0 : s.w_call_start = 0
  · simp [h0]
  · simp [h.1 h0]

theorem trace_stage (steps : List Step) :
    ∀ (s : State), StageOk s → ∀ r ∈ trace s steps,
      StageOk r.before ∧ StageOk r.pre ∧ StageOk r.out.st := by
  induction steps with
  | nil => intro s _ r hr; simp [trace] at hr
  | cons st rest ih =>
    intro s hs r hr
    simp only [trace, List.mem_cons] at hr
    rcases hr with rfl | hr
    · exact ⟨hs, handle_stageOk _ _ hs, applyOutputs_stageOk _ _⟩
    · exact ih _ (applyOutputs_stageOk _ _) r hr

/-- C16. In every state reached from the initial state by dispatched messages
and evaluations (before a handler, after it, after the evaluation),
`w_call_start != 0` implies `w1_on`, and `w2_on` implies `w1_on`; so the
conditional reset `(w1_on || w2_on) ? w_call_start : 0` evaluates to
`w_call_start`, and an evaluation with heat demand and
`target - current < STAGE2_DELTA_F` leaves `w_call_start` as it was. -/
theorem stage_invariant (steps : List Step) (r : Rec) (hr : r ∈ trace init steps) :
    ((r.before.w_call_start ≠ 0 → r.before.w1_on = true) ∧
      (r.before.w2_on = true → r.before.w1_on = true)) ∧
    ((r.pre.w_call_start ≠ 0 → r.pre.w1_on = true) ∧
      (r.pre.w2_on = true → r.pre.w1_on = true)) ∧
    ((r.out.st.w_call_start ≠ 0 → r.out.st.w1_on = true) ∧
      (r.out.st.w2_on = true → r.out.st.w1_on = true)) ∧
    (if r.pre.w1_on || r.pre.w2_on then r.pre.w_call_start else 0) = r.pre.w_call_start ∧
    (heatDemand r.pre = true → bigCall r.pre = false →
      r.out.st.w_call_start = r.pre.w_call_start) := by
  have h0 : StageOk init := by
    unfold StageOk
    exact ⟨fun h => absurd rfl h, fun h => by simp [init] at h⟩
  obtain ⟨hb, hp, ho⟩ := trace_stage steps init h0 r hr
  have hreset := stageOk_reset r.pre hp
  refine ⟨hb, hp, ho, hreset, ?_⟩
  intro hd hbig
  rw [trace_out steps init r hr]
  have hw : (applyOutputs r.now r.pre).st.w_call_start = heatTimer r.now r.pre := by
    simp [applyOutputs_st]
  rw [hw]
  simp only [heatTimer, hd, hbig, if_true]
  simpa using hreset

/-- The invariant on the record `easeRec`: the reading rises to 73 degrees
(target 74, so heat demand stays with a delta below 2) while the stage timer
runs since 2 s; the timer keeps its value. -/
theorem stage_invariant_witness :
    ((easeRec.before.w_call_start ≠ 0 → easeRec.before.w1_on = true) ∧
      (easeRec.before.w2_on = true → easeRec.before.w1_on = true)) ∧
    ((easeRec.pre.w_call_start ≠ 0 → easeRec.pre.w1_on = true) ∧
      (easeRec.pre.w2_on = true → easeRec.pre.w1_on = true)) ∧
    ((easeRec.out.st.w_call_start ≠ 0 → easeRec.out.st.w1_on = true) ∧
      (easeRec.out.st.w2_on = true → easeRec.out.st.w1_on = true)) ∧
    (if easeRec.pre.w1_on || easeRec.pre.w2_on then easeRec.pre.w_call_start else 0) =
      easeRec.pre.w_call_start ∧
    (heatDemand easeRec.pre = true → bigCall easeRec.pre = false →
      easeRec.out.st.w_call_start = easeRec.pre.w_call_start) :=
  stage_invariant easeRun easeRec (by decide!)

theorem easeRec_values :
    heatDemand easeRec.pre = true ∧ bigCall easeRec.pre = false ∧
    easeRec.pre.w_call_start = 2 ∧ easeRec.out.st.w_call_start = 2 := by
  decide!

end Thermostat
